import Mathlib

/-!
Shallow embedding of the e-commerce backend (`src/main.py`): the pricing
engine (`is_germany`, `is_eu_country`, `calculate_shipping`, `round2`,
`api_calculate_pricing`), the request validation layer, the PayPal adapter
(`paypal_get_access_token`, `create_order`, `capture_order`) modelled with an
explicit provider environment and a trace of outbound calls, and the `/test`
diagnostics endpoint.

Python floats holding monetary amounts are modelled as exact rationals (ℚ);
every monetary value the program manipulates is an exact multiple of 1/100 at
these magnitudes, so binary floating point and exact decimal arithmetic agree
after rounding to two decimal places.  Python `str.strip` / `str.lower` are
modelled by `pyStrip` / `pyLower`, structural-recursion versions of trimming
surrounding whitespace and lowercasing (ASCII, which covers every string the
decision sets compare against).
-/

/-- Python `str.strip()`: drop leading and trailing whitespace. -/
def pyStrip (s : String) : String :=
  ⟨((s.data.dropWhile Char.isWhitespace).reverse.dropWhile Char.isWhitespace).reverse⟩

/-- Python `str.lower()`: lowercase every character. -/
def pyLower (s : String) : String :=
  ⟨s.data.map Char.toLower⟩

/-- `Address` model from `src/main.py` (all plain strings). -/
structure Address where
  country : String
  city : String
  postal_code : String
  street : String
deriving DecidableEq, Repr

/-- `PricingRequest` model: quantity (validated to [1,20] by the schema
layer, see `handle_calculate_pricing`) plus an address. -/
structure PricingRequest where
  quantity : ℤ
  address : Address
deriving DecidableEq, Repr

/-- `PricingResponse` model from `src/main.py`. -/
structure PricingResponse where
  product_price : ℚ
  quantity : ℤ
  subtotal : ℚ
  shipping_cost : ℚ
  total : ℚ
  shipping_rule : String
deriving DecidableEq, Repr

/-- `UNIT_PRICE = 24.99` from `src/main.py`. -/
def UNIT_PRICE : ℚ := 24.99

/-- `is_germany` from `src/main.py`: strip, lowercase, and test membership in
the set `{"germany", "de", "deutschland"}`. -/
def is_germany (country : String) : Bool :=
  ["germany", "de", "deutschland"].contains (pyLower (pyStrip country))

/-- The `eu_countries` set literal from `src/main.py` (28 names; includes
both `"czechia"` and `"czech republic"`, and includes `"germany"`). -/
def eu_countries : List String :=
  ["austria", "belgium", "bulgaria", "croatia", "cyprus", "czechia", "czech republic",
   "denmark", "estonia", "finland", "france", "germany", "greece", "hungary",
   "ireland", "italy", "latvia", "lithuania", "luxembourg", "malta", "netherlands",
   "poland", "portugal", "romania", "slovakia", "slovenia", "spain", "sweden"]

/-- `is_eu_country` from `src/main.py`. -/
def is_eu_country (country : String) : Bool :=
  eu_countries.contains (pyLower (pyStrip country))

/-- `calculate_shipping` from `src/main.py`.  The Python code returns out of
the `is_germany` block first; inside the `is_eu_country` block there is a
redundant inner `not is_germany` guard whose false branch falls through to
the international tier — the nested conditional below mirrors that control
flow exactly. -/
def calculate_shipping (quantity : ℤ) (address : Address) : ℚ × String :=
  if is_germany address.country then
    if pyLower (pyStrip address.city) = "berlin" then
      (0.0, "Berlin: Free same-day delivery")
    else if quantity = 2 then
      (0.0, "Germany (non-Berlin): Free shipping for exactly 2 bottles")
    else
      (7.99, "Germany (non-Berlin): €7.99 shipping")
  else if is_eu_country address.country ∧ ¬ is_germany address.country then
    if quantity = 3 then
      (0.0, "EU (non-DE): Free shipping for exactly 3 bottles")
    else
      (14.99, "EU (non-DE): €14.99 shipping")
  else if quantity = 5 then
    (0.0, "International: Free shipping for exactly 5 bottles")
  else
    (19.99, "International: €19.99 shipping")

/-- `round2` from `src/main.py`: round to two decimal places.  The Python
code formats the float with `f"{x:.2f}"` and reparses; on exact multiples of
1/100 (the only values the program feeds it) every rounding convention is
the identity, so the tie-breaking rule is immaterial. -/
def round2 (x : ℚ) : ℚ :=
  ((round (x * 100) : ℤ) : ℚ) / 100

/-- Handler body of `POST /api/calculate-pricing` from `src/main.py`
(`api_calculate_pricing`), for a schema-validated payload. -/
def api_calculate_pricing (payload : PricingRequest) : PricingResponse :=
  let sr := calculate_shipping payload.quantity payload.address
  let subtotal := UNIT_PRICE * (payload.quantity : ℚ)
  let total := subtotal + sr.1
  { product_price := round2 UNIT_PRICE
    quantity := payload.quantity
    subtotal := round2 subtotal
    shipping_cost := round2 sr.1
    total := round2 total
    shipping_rule := sr.2 }

/-- Pydantic schema bound on `PricingRequest.quantity` (`ge=1, le=20`). -/
def quantityValid (q : ℤ) : Bool :=
  1 ≤ q ∧ q ≤ 20

/-- The framework layer of `POST /api/calculate-pricing`: FastAPI/Pydantic
validates the body against `PricingRequest` (quantity in [1,20]) and rejects
violations with HTTP 422 before the handler runs; only a valid payload
reaches `api_calculate_pricing`. -/
def handle_calculate_pricing (q : ℤ) (a : Address) : Except ℕ PricingResponse :=
  if quantityValid q then
    Except.ok (api_calculate_pricing ⟨q, a⟩)
  else
    Except.error 422

/-! ### Helper lemmas: exact-cents arithmetic -/

/-- A rational that is an exact multiple of one cent. -/
def IsCents (x : ℚ) : Prop :=
  ∃ k : ℤ, x = (k : ℚ) / 100

lemma isCents_add {x y : ℚ} (hx : IsCents x) (hy : IsCents y) : IsCents (x + y) := by
  obtain ⟨k, rfl⟩ := hx
  obtain ⟨m, rfl⟩ := hy
  exact ⟨k + m, by push_cast; ring⟩

lemma round2_eq_self {x : ℚ} (hx : IsCents x) : round2 x = x := by
  obtain ⟨k, rfl⟩ := hx
  unfold round2
  have h : (k : ℚ) / 100 * 100 = (k : ℚ) := by field_simp
  rw [h, round_intCast]

lemma unitPrice_mul_isCents (q : ℤ) : IsCents (UNIT_PRICE * (q : ℚ)) := by
  refine ⟨2499 * q, ?_⟩
  have h : UNIT_PRICE = (2499 : ℚ) / 100 := by norm_num [UNIT_PRICE]
  rw [h]
  push_cast
  ring

lemma shipping_cases (q : ℤ) (a : Address) :
    (calculate_shipping q a).1 = 0 ∨ (calculate_shipping q a).1 = 7.99 ∨
    (calculate_shipping q a).1 = 14.99 ∨ (calculate_shipping q a).1 = 19.99 := by
  unfold calculate_shipping
  split_ifs <;> norm_num

lemma shipping_isCents (q : ℤ) (a : Address) : IsCents (calculate_shipping q a).1 := by
  rcases shipping_cases q a with h | h | h | h <;> rw [h]
  · exact ⟨0, by norm_num⟩
  · exact ⟨799, by norm_num⟩
  · exact ⟨1499, by norm_num⟩
  · exact ⟨1999, by norm_num⟩

lemma shipping_nonneg (q : ℤ) (a : Address) : 0 ≤ (calculate_shipping q a).1 := by
  rcases shipping_cases q a with h | h | h | h <;> rw [h] <;> norm_num

/-! ### Spec-side decision table (refinement target for the shipping logic) -/

/-- Spec's field normalization: trim surrounding whitespace, then lowercase. -/
def normalizeField (s : String) : String :=
  pyLower (pyStrip s)

/-- The spec's domestic set: the country's common name, ISO-2 code and native
name — `{germany, de, deutschland}`. -/
def domesticSet : List String :=
  ["germany", "de", "deutschland"]

/-- The seven outcomes of the spec's ordered shipping decision table. -/
inductive ShipBranch where
  | domesticCapital
  | domesticFree2
  | domesticFlat
  | regionalFree3
  | regionalFlat
  | intlFree5
  | intlFlat
deriving DecidableEq, Repr

/-- The spec's ordered decision table, first match wins: domestic branch
(capital city, free-for-2, flat 7.99), else regional branch (free-for-3,
flat 14.99), else international branch (free-for-5, flat 19.99). -/
def specShipBranch (quantity : ℤ) (a : Address) : ShipBranch :=
  if domesticSet.contains (normalizeField a.country) then
    if normalizeField a.city = "berlin" then ShipBranch.domesticCapital
    else if quantity = 2 then ShipBranch.domesticFree2
    else ShipBranch.domesticFlat
  else if eu_countries.contains (normalizeField a.country) then
    if quantity = 3 then ShipBranch.regionalFree3
    else ShipBranch.regionalFlat
  else if quantity = 5 then ShipBranch.intlFree5
  else ShipBranch.intlFlat

/-- Shipping cost assigned to each branch of the spec's decision table. -/
def branchCost : ShipBranch → ℚ
  | ShipBranch.domesticCapital => 0
  | ShipBranch.domesticFree2 => 0
  | ShipBranch.domesticFlat => 7.99
  | ShipBranch.regionalFree3 => 0
  | ShipBranch.regionalFlat => 14.99
  | ShipBranch.intlFree5 => 0
  | ShipBranch.intlFlat => 19.99

/-- The rule string the code emits for each branch of the decision table. -/
def branchRule : ShipBranch → String
  | ShipBranch.domesticCapital => "Berlin: Free same-day delivery"
  | ShipBranch.domesticFree2 => "Germany (non-Berlin): Free shipping for exactly 2 bottles"
  | ShipBranch.domesticFlat => "Germany (non-Berlin): €7.99 shipping"
  | ShipBranch.regionalFree3 => "EU (non-DE): Free shipping for exactly 3 bottles"
  | ShipBranch.regionalFlat => "EU (non-DE): €14.99 shipping"
  | ShipBranch.intlFree5 => "International: Free shipping for exactly 5 bottles"
  | ShipBranch.intlFlat => "International: €19.99 shipping"

/-- **C1**: For every quantity in [1,20] and every address,
`calculate_shipping` selects the shipping cost and rule given by the spec's
ordered decision table with first match winning: domestic branch (Berlin →
free same-day; quantity 2 → free; else 7.99), else regional branch
(quantity 3 → free; else 14.99), else international branch (quantity 5 →
free; else 19.99). -/
theorem calculate_shipping_follows_decision_table (q : ℤ) (a : Address)
    (h1 : 1 ≤ q) (h2 : q ≤ 20) :
    calculate_shipping q a =
      (branchCost (specShipBranch q a), branchRule (specShipBranch q a)) := by
  unfold calculate_shipping specShipBranch normalizeField domesticSet is_germany is_eu_country
  split_ifs <;> simp_all [branchCost, branchRule] <;> norm_num

/-- Witness for C1 at quantity 1 and a Berlin address. -/
theorem calculate_shipping_follows_decision_table_witness :
    (1 : ℤ) ≤ 1 ∧ (1 : ℤ) ≤ 20 ∧
    calculate_shipping 1 ⟨"Germany", "Berlin", "10115", "Unter den Linden 1"⟩ =
      (branchCost (specShipBranch 1 ⟨"Germany", "Berlin", "10115", "Unter den Linden 1"⟩),
       branchRule (specShipBranch 1 ⟨"Germany", "Berlin", "10115", "Unter den Linden 1"⟩)) :=
  ⟨by norm_num, by norm_num,
   calculate_shipping_follows_decision_table 1 _ (by norm_num) (by norm_num)⟩

/-- **C2**: For every quantity in [1,20] and every address, the pricing
result satisfies `subtotal = round2(UNIT_PRICE * quantity)` and
`total = round2(subtotal + shipping_cost)`; in particular country "DE",
city "Munich", quantity 1 yields shipping cost 7.99 and total 32.98. -/
theorem pricing_totals_correct (q : ℤ) (a : Address) (h1 : 1 ≤ q) (h2 : q ≤ 20) :
    (api_calculate_pricing ⟨q, a⟩).subtotal = round2 (UNIT_PRICE * (q : ℚ)) ∧
    (api_calculate_pricing ⟨q, a⟩).total =
      round2 ((api_calculate_pricing ⟨q, a⟩).subtotal +
        (api_calculate_pricing ⟨q, a⟩).shipping_cost) ∧
    (api_calculate_pricing ⟨1, ⟨"DE", "Munich", "80331", "Marienplatz 1"⟩⟩).shipping_cost
      = 7.99 ∧
    (api_calculate_pricing ⟨1, ⟨"DE", "Munich", "80331", "Marienplatz 1"⟩⟩).total = 32.98 := by
  refine ⟨rfl, ?_, ?_, ?_⟩
  · simp only [api_calculate_pricing]
    rw [round2_eq_self (unitPrice_mul_isCents q), round2_eq_self (shipping_isCents q a)]
  · norm_num [api_calculate_pricing, calculate_shipping, round2, UNIT_PRICE, round_eq,
      show is_germany "DE" = true from by decide,
      show pyLower (pyStrip "Munich") = "munich" from by decide,
      show ¬"munich" = "berlin" from by decide]
  · norm_num [api_calculate_pricing, calculate_shipping, round2, UNIT_PRICE, round_eq,
      show is_germany "DE" = true from by decide,
      show pyLower (pyStrip "Munich") = "munich" from by decide,
      show ¬"munich" = "berlin" from by decide]

/-- Witness for C2 at quantity 3 and a French address. -/
theorem pricing_totals_correct_witness :
    (1 : ℤ) ≤ 3 ∧ (3 : ℤ) ≤ 20 ∧
    (api_calculate_pricing ⟨3, ⟨"France", "Paris", "75001", "Rue de Rivoli 1"⟩⟩).subtotal
      = round2 (UNIT_PRICE * ((3 : ℤ) : ℚ)) :=
  ⟨by norm_num, by norm_num,
   (pricing_totals_correct 3 ⟨"France", "Paris", "75001", "Rue de Rivoli 1"⟩
     (by norm_num) (by norm_num)).1⟩

/-- **C3**: the pricing computation is invariant under surrounding
whitespace and letter case of the country field: two country strings that
strip-and-lowercase to the same string produce the same shipping outcome
(cost and rule) and the same decision-table branch. -/
theorem shipping_country_normalization_invariant (q : ℤ)
    (c c' city pc st : String) (h1 : 1 ≤ q) (h2 : q ≤ 20)
    (h : pyLower (pyStrip c) = pyLower (pyStrip c')) :
    calculate_shipping q ⟨c, city, pc, st⟩ = calculate_shipping q ⟨c', city, pc, st⟩ ∧
    specShipBranch q ⟨c, city, pc, st⟩ = specShipBranch q ⟨c', city, pc, st⟩ := by
  constructor
  · simp only [calculate_shipping, is_germany, is_eu_country, h]
  · simp only [specShipBranch, normalizeField, h]

/-- Witness for C3: " GERMANY " versus "germany" at quantity 1. -/
theorem shipping_country_normalization_invariant_witness :
    (1 : ℤ) ≤ 1 ∧ (1 : ℤ) ≤ 20 ∧
    pyLower (pyStrip " GERMANY ") = pyLower (pyStrip "germany") ∧
    calculate_shipping 1 ⟨" GERMANY ", "Munich", "80331", "s"⟩ =
      calculate_shipping 1 ⟨"germany", "Munich", "80331", "s"⟩ :=
  ⟨by norm_num, by norm_num, by decide,
   (shipping_country_normalization_invariant 1 " GERMANY " "germany" "Munich" "80331" "s"
     (by norm_num) (by norm_num) (by decide)).1⟩

/-- **C4**: for a domestic (Germany) country string, the shipping logic
always returns the domestic-branch outcome and never the regional one: the
result is exactly the domestic conditional, the cost is never 14.99, and the
rule string is never one of the regional rule strings. -/
theorem domestic_excludes_regional (q : ℤ) (a : Address) (h1 : 1 ≤ q) (h2 : q ≤ 20)
    (hg : is_germany a.country = true) :
    calculate_shipping q a =
      (if pyLower (pyStrip a.city) = "berlin" then
        ((0.0 : ℚ), "Berlin: Free same-day delivery")
      else if q = 2 then
        ((0.0 : ℚ), "Germany (non-Berlin): Free shipping for exactly 2 bottles")
      else ((7.99 : ℚ), "Germany (non-Berlin): €7.99 shipping")) ∧
    (calculate_shipping q a).1 ≠ 14.99 ∧
    (calculate_shipping q a).2 ≠ "EU (non-DE): Free shipping for exactly 3 bottles" ∧
    (calculate_shipping q a).2 ≠ "EU (non-DE): €14.99 shipping" := by
  have hmain : calculate_shipping q a =
      (if pyLower (pyStrip a.city) = "berlin" then
        ((0.0 : ℚ), "Berlin: Free same-day delivery")
      else if q = 2 then
        ((0.0 : ℚ), "Germany (non-Berlin): Free shipping for exactly 2 bottles")
      else ((7.99 : ℚ), "Germany (non-Berlin): €7.99 shipping")) := by
    simp only [calculate_shipping, hg, if_true]
  refine ⟨hmain, ?_, ?_, ?_⟩ <;> rw [hmain] <;> split_ifs
  all_goals first | (norm_num; done) | decide

/-- Witness for C4: Germany, Hamburg, quantity 4 gives the flat domestic
outcome. -/
theorem domestic_excludes_regional_witness :
    (1 : ℤ) ≤ 4 ∧ (4 : ℤ) ≤ 20 ∧ is_germany "Germany" = true ∧
    (calculate_shipping 4 ⟨"Germany", "Hamburg", "20095", "s"⟩).1 ≠ 14.99 :=
  ⟨by norm_num, by norm_num, by decide,
   (domestic_excludes_regional 4 ⟨"Germany", "Hamburg", "20095", "s"⟩
     (by norm_num) (by norm_num) (by decide)).2.1⟩

/-- **C5**: a request whose quantity lies outside [1,20] is rejected by the
schema layer with HTTP 422 and no `PricingResponse` is produced. -/
theorem invalid_quantity_rejected (q : ℤ) (a : Address) (h : q < 1 ∨ 20 < q) :
    handle_calculate_pricing q a = Except.error 422 := by
  unfold handle_calculate_pricing
  split_ifs with hv
  · exfalso
    simp [quantityValid] at hv
    omega
  · rfl

/-- Witness for C5 at quantity 0. -/
theorem invalid_quantity_rejected_witness :
    ((0 : ℤ) < 1 ∨ 20 < (0 : ℤ)) ∧
    handle_calculate_pricing 0 ⟨"Germany", "Berlin", "10115", "s"⟩ = Except.error 422 :=
  ⟨Or.inl (by norm_num),
   invalid_quantity_rejected 0 ⟨"Germany", "Berlin", "10115", "s"⟩ (Or.inl (by norm_num))⟩

/-- **C10**: for every quantity in [1,20] and every address the shipping
cost is one of {0, 7.99, 14.99, 19.99}, hence non-negative, and the rounded
total is at least the rounded subtotal. -/
theorem shipping_cost_invariants (q : ℤ) (a : Address) (h1 : 1 ≤ q) (h2 : q ≤ 20) :
    ((calculate_shipping q a).1 = 0 ∨ (calculate_shipping q a).1 = 7.99 ∨
     (calculate_shipping q a).1 = 14.99 ∨ (calculate_shipping q a).1 = 19.99) ∧
    0 ≤ (calculate_shipping q a).1 ∧
    (api_calculate_pricing ⟨q, a⟩).subtotal ≤ (api_calculate_pricing ⟨q, a⟩).total := by
  refine ⟨shipping_cases q a, shipping_nonneg q a, ?_⟩
  simp only [api_calculate_pricing]
  rw [round2_eq_self (unitPrice_mul_isCents q),
    round2_eq_self (isCents_add (unitPrice_mul_isCents q) (shipping_isCents q a))]
  have hs := shipping_nonneg q a
  linarith

/-- Witness for C10 at quantity 5 and a Brazilian address. -/
theorem shipping_cost_invariants_witness :
    (1 : ℤ) ≤ 5 ∧ (5 : ℤ) ≤ 20 ∧
    0 ≤ (calculate_shipping 5 ⟨"Brazil", "Rio", "20000", "s"⟩).1 :=
  ⟨by norm_num, by norm_num,
   (shipping_cost_invariants 5 ⟨"Brazil", "Rio", "20000", "s"⟩
     (by norm_num) (by norm_num)).2.1⟩

/-! ### PayPal adapter (`src/main.py` lines 132–233) and `/test` endpoint

The adapter performs outbound HTTP calls; we model the provider's behaviour
as an explicit environment (`PayPalEnv`: configured credentials plus the
status/body each provider endpoint would answer with), and each handler as a
function returning its result together with the trace of outbound provider
calls it issued, in order. -/

/-- Python `s[:n]` on a string. -/
def pyTake (s : String) (n : ℕ) : String :=
  ⟨s.data.take n⟩

/-- Python `str.upper()`: uppercase every character. -/
def pyUpper (s : String) : String :=
  ⟨s.data.map Char.toUpper⟩

/-- Python truthiness of an `Optional[str]` (as in
`if not PAYPAL_CLIENT_ID or not PAYPAL_SECRET`): `None` and `""` are falsy. -/
def isSet : Option String → Bool
  | none => false
  | some s => !s.isEmpty

/-- `PRODUCT_NAME` constant from `src/main.py`. -/
def PRODUCT_NAME : String := "Testosterone Booster"

/-- `CURRENCY` constant from `src/main.py`. -/
def CURRENCY : String := "EUR"

/-- Python `f"{x:.2f}"` for the non-negative exact-cents amounts the code
formats. -/
def fmt2 (x : ℚ) : String :=
  let c : ℤ := round (x * 100)
  toString (c / 100) ++ "." ++ (if c % 100 < 10 then "0" else "") ++ toString (c % 100)

/-- A `{currency_code, value}` JSON object in the order payload. -/
structure MoneyValue where
  currency_code : String
  value : String
deriving DecidableEq, Repr

/-- The `amount` object of the purchase unit (total plus breakdown). -/
structure OrderAmount where
  currency_code : String
  value : String
  item_total : MoneyValue
  shipping : MoneyValue
deriving DecidableEq, Repr

/-- An entry of the `items` array of the purchase unit. -/
structure OrderItem where
  name : String
  quantity : String
  unit_amount : MoneyValue
  category : String
deriving DecidableEq, Repr

/-- The `shipping.address` object of the purchase unit. -/
structure OrderShippingAddress where
  address_line_1 : String
  admin_area_2 : String
  postal_code : String
  country_code : String
deriving DecidableEq, Repr

/-- A purchase unit of the provider order payload. -/
structure PurchaseUnit where
  reference_id : String
  description : String
  amount : OrderAmount
  items : List OrderItem
  shipping_address : OrderShippingAddress
deriving DecidableEq, Repr

/-- The `application_context` object of the provider order payload. -/
structure ApplicationContext where
  shipping_preference : String
  user_action : String
deriving DecidableEq, Repr

/-- The provider order payload (`order_body` in `create_order`). -/
structure OrderBody where
  intent : String
  purchase_units : List PurchaseUnit
  application_context : ApplicationContext
deriving DecidableEq, Repr

/-- The `order_body` dict built inside `create_order` in `src/main.py`. -/
def build_order_body (pricing : PricingResponse) (payload : PricingRequest) : OrderBody :=
  { intent := "CAPTURE"
    purchase_units :=
      [{ reference_id := "TESTOSTERONE-BOOSTER"
         description := PRODUCT_NAME
         amount :=
           { currency_code := CURRENCY
             value := fmt2 pricing.total
             item_total := { currency_code := CURRENCY, value := fmt2 pricing.subtotal }
             shipping := { currency_code := CURRENCY, value := fmt2 pricing.shipping_cost } }
         items :=
           [{ name := PRODUCT_NAME
              quantity := toString pricing.quantity
              unit_amount := { currency_code := CURRENCY, value := fmt2 UNIT_PRICE }
              category := "PHYSICAL_GOODS" }]
         shipping_address :=
           { address_line_1 := payload.address.street
             admin_area_2 := payload.address.city
             postal_code := payload.address.postal_code
             country_code := pyUpper (pyTake payload.address.country 2) } }]
    application_context :=
      { shipping_preference := "SET_PROVIDED_ADDRESS", user_action := "PAY_NOW" } }

/-- An outbound provider call, as recorded in a handler's trace. -/
inductive PCall where
  | tokenExchange
  | orderCreate (body : OrderBody)
  | orderCapture (order_id : String)
deriving DecidableEq, Repr

/-- Whether a provider call is an order-creation request. -/
def isOrderCreate : PCall → Bool
  | PCall.orderCreate _ => true
  | _ => false

/-- The distinct `HTTPException(status_code=500, ...)` raise sites of the
adapter (the spec's ConfigurationError / UpstreamAuthError /
UpstreamOrderError / UpstreamCaptureError). -/
inductive PPError where
  | configMissing
  | authFailed (text : String)
  | orderFailed (text : String)
  | captureFailed (text : String)
deriving DecidableEq, Repr

/-- Every adapter error is raised as HTTP 500 in `src/main.py`. -/
def PPError.httpStatus : PPError → ℕ := fun _ => 500

/-- The `detail` string of each raise site in `src/main.py` (provider bodies
truncated to 200/300 characters as in the code). -/
def PPError.detail : PPError → String
  | PPError.configMissing => "PayPal credentials not configured on server"
  | PPError.authFailed t => "PayPal auth failed: " ++ pyTake t 200
  | PPError.orderFailed t => "PayPal order creation failed: " ++ pyTake t 300
  | PPError.captureFailed t => "PayPal capture failed: " ++ pyTake t 300

/-- The environment of a checkout attempt: the configured credentials
(`PAYPAL_CLIENT_ID`, `PAYPAL_SECRET`, each possibly unset or empty) and the
response the provider would give at each endpoint. -/
structure PayPalEnv where
  client_id : Option String
  secret : Option String
  token_status : ℕ
  token_text : String
  access_token : String
  order_status : ℕ
  order_text : String
  order_id : String
  capture_status : ℕ
  capture_text : String
  capture_json : String
deriving DecidableEq, Repr

/-- `CreateOrderResponse` model from `src/main.py`. -/
structure CreateOrderResponse where
  order_id : String
  total : ℚ
deriving DecidableEq, Repr

/-- `paypal_get_access_token` from `src/main.py`: fail if either credential
is falsy, otherwise perform the token exchange and fail on a >= 400 status. -/
def paypal_get_access_token (env : PayPalEnv) :
    Except PPError String × List PCall :=
  if ¬ isSet env.client_id ∨ ¬ isSet env.secret then
    (Except.error PPError.configMissing, [])
  else if 400 ≤ env.token_status then
    (Except.error (PPError.authFailed env.token_text), [PCall.tokenExchange])
  else
    (Except.ok env.access_token, [PCall.tokenExchange])

/-- `create_order` handler from `src/main.py`: recompute pricing, obtain a
token (propagating its failure), then issue the order-creation call and fail
on a >= 400 status. -/
def create_order (env : PayPalEnv) (payload : PricingRequest) :
    Except PPError CreateOrderResponse × List PCall :=
  let pricing := api_calculate_pricing payload
  match paypal_get_access_token env with
  | (Except.error e, calls) => (Except.error e, calls)
  | (Except.ok _token, calls) =>
    let body := build_order_body pricing payload
    if 400 ≤ env.order_status then
      (Except.error (PPError.orderFailed env.order_text), calls ++ [PCall.orderCreate body])
    else
      (Except.ok ⟨env.order_id, pricing.total⟩, calls ++ [PCall.orderCreate body])

/-- `capture_order` handler from `src/main.py`: obtain a token (propagating
its failure), then issue the capture call and fail on a >= 400 status;
on success the provider's capture JSON is returned verbatim. -/
def capture_order (env : PayPalEnv) (order_id : String) :
    Except PPError String × List PCall :=
  match paypal_get_access_token env with
  | (Except.error e, calls) => (Except.error e, calls)
  | (Except.ok _token, calls) =>
    if 400 ≤ env.capture_status then
      (Except.error (PPError.captureFailed env.capture_text), calls ++ [PCall.orderCapture order_id])
    else
      (Except.ok env.capture_json, calls ++ [PCall.orderCapture order_id])

/-- Response of `GET /test` from `src/main.py`. -/
structure TestResponse where
  backend : String
  paypal_client : String
  paypal_secret : String
deriving DecidableEq, Repr

/-- `test_database` handler of `GET /test` from `src/main.py`, as a function
of the two configured credentials. -/
def test_database (client_id secret : Option String) : TestResponse :=
  { backend := "✅ Running"
    paypal_client := if isSet client_id then "✅ Set" else "❌ Not Set"
    paypal_secret := if isSet secret then "✅ Set" else "❌ Not Set" }

/-- Spec-side view of `GET /test`: a response computed from the two
presence flags alone. -/
def testResponseOfFlags (clientSet secretSet : Bool) : TestResponse :=
  { backend := "✅ Running"
    paypal_client := if clientSet then "✅ Set" else "❌ Not Set"
    paypal_secret := if secretSet then "✅ Set" else "❌ Not Set" }

/-! ### Reduction lemmas for the adapter handlers -/

lemma get_token_config {env : PayPalEnv}
    (h : ¬ isSet env.client_id = true ∨ ¬ isSet env.secret = true) :
    paypal_get_access_token env = (Except.error PPError.configMissing, []) := by
  unfold paypal_get_access_token
  rw [if_pos h]

lemma get_token_auth {env : PayPalEnv}
    (h1 : ¬ (¬ isSet env.client_id = true ∨ ¬ isSet env.secret = true))
    (h2 : 400 ≤ env.token_status) :
    paypal_get_access_token env =
      (Except.error (PPError.authFailed env.token_text), [PCall.tokenExchange]) := by
  unfold paypal_get_access_token
  rw [if_neg h1, if_pos h2]

lemma get_token_ok {env : PayPalEnv}
    (h1 : ¬ (¬ isSet env.client_id = true ∨ ¬ isSet env.secret = true))
    (h2 : ¬ 400 ≤ env.token_status) :
    paypal_get_access_token env = (Except.ok env.access_token, [PCall.tokenExchange]) := by
  unfold paypal_get_access_token
  rw [if_neg h1, if_neg h2]

lemma create_order_token_error {env : PayPalEnv} {p : PricingRequest} {e : PPError}
    {calls : List PCall}
    (h : paypal_get_access_token env = (Except.error e, calls)) :
    create_order env p = (Except.error e, calls) := by
  unfold create_order
  rw [h]

lemma create_order_token_ok {env : PayPalEnv} {p : PricingRequest} {t : String}
    {calls : List PCall}
    (h : paypal_get_access_token env = (Except.ok t, calls)) :
    create_order env p =
      if 400 ≤ env.order_status then
        (Except.error (PPError.orderFailed env.order_text),
          calls ++ [PCall.orderCreate (build_order_body (api_calculate_pricing p) p)])
      else
        (Except.ok ⟨env.order_id, (api_calculate_pricing p).total⟩,
          calls ++ [PCall.orderCreate (build_order_body (api_calculate_pricing p) p)]) := by
  unfold create_order
  rw [h]

lemma capture_order_token_error {env : PayPalEnv} {oid : String} {e : PPError}
    {calls : List PCall}
    (h : paypal_get_access_token env = (Except.error e, calls)) :
    capture_order env oid = (Except.error e, calls) := by
  unfold capture_order
  rw [h]

lemma capture_order_token_ok {env : PayPalEnv} {oid : String} {t : String}
    {calls : List PCall}
    (h : paypal_get_access_token env = (Except.ok t, calls)) :
    capture_order env oid =
      if 400 ≤ env.capture_status then
        (Except.error (PPError.captureFailed env.capture_text),
          calls ++ [PCall.orderCapture oid])
      else
        (Except.ok env.capture_json, calls ++ [PCall.orderCapture oid]) := by
  unfold capture_order
  rw [h]

/-- **C6**: if the provider token exchange answers with a non-2xx (>= 400)
status, `create_order` fails with an HTTP 500 error and its trace of
outbound calls contains no order-creation request. -/
theorem auth_failure_blocks_order_creation (env : PayPalEnv) (p : PricingRequest)
    (h : 400 ≤ env.token_status) :
    (∃ e : PPError, (create_order env p).1 = Except.error e ∧ PPError.httpStatus e = 500) ∧
    ∀ c ∈ (create_order env p).2, isOrderCreate c = false := by
  by_cases hc : ¬ isSet env.client_id = true ∨ ¬ isSet env.secret = true
  · rw [create_order_token_error (get_token_config hc)]
    exact ⟨⟨PPError.configMissing, rfl, rfl⟩, by simp⟩
  · rw [create_order_token_error (get_token_auth hc h)]
    refine ⟨⟨PPError.authFailed env.token_text, rfl, rfl⟩, ?_⟩
    intro c hcmem
    simp at hcmem
    subst hcmem
    rfl

/-- Witness for C6: a fully configured environment whose token endpoint
answers 401. -/
theorem auth_failure_blocks_order_creation_witness :
    (400 : ℕ) ≤ 401 ∧
    (∃ e : PPError,
      (create_order
          ⟨some "cid", some "sec", 401, "unauthorized", "tok", 201, "", "OID", 201, "", "{}"⟩
          ⟨1, ⟨"DE", "Munich", "80331", "s"⟩⟩).1 = Except.error e ∧
      PPError.httpStatus e = 500) :=
  ⟨by norm_num,
   (auth_failure_blocks_order_creation
     ⟨some "cid", some "sec", 401, "unauthorized", "tok", 201, "", "OID", 201, "", "{}"⟩
     ⟨1, ⟨"DE", "Munich", "80331", "s"⟩⟩ (by norm_num)).1⟩

/-- **C7**: with either provider credential absent (unset or empty), both
`create_order` and `capture_order` fail with the configuration error (HTTP
500) and make no outbound provider call; with both credentials present that
error is unreachable for both handlers. -/
theorem missing_credentials_config_error (env : PayPalEnv) (p : PricingRequest)
    (oid : String) :
    ((isSet env.client_id && isSet env.secret) = false →
      create_order env p = (Except.error PPError.configMissing, []) ∧
      capture_order env oid = (Except.error PPError.configMissing, []) ∧
      PPError.httpStatus PPError.configMissing = 500) ∧
    ((isSet env.client_id && isSet env.secret) = true →
      (∀ e, (create_order env p).1 = Except.error e → e ≠ PPError.configMissing) ∧
      (∀ e, (capture_order env oid).1 = Except.error e → e ≠ PPError.configMissing)) := by
  constructor
  · intro hmiss
    have hor : ¬ isSet env.client_id = true ∨ ¬ isSet env.secret = true := by
      cases hcid : isSet env.client_id <;> cases hsec : isSet env.secret <;> simp_all
    exact ⟨create_order_token_error (get_token_config hor),
           capture_order_token_error (get_token_config hor), rfl⟩
  · intro hset
    have hnor : ¬ (¬ isSet env.client_id = true ∨ ¬ isSet env.secret = true) := by
      cases hcid : isSet env.client_id <;> cases hsec : isSet env.secret <;> simp_all
    constructor
    · intro e he
      by_cases ht : 400 ≤ env.token_status
      · rw [create_order_token_error (get_token_auth hnor ht)] at he
        simp at he
        simp [← he]
      · rw [create_order_token_ok (get_token_ok hnor ht)] at he
        split_ifs at he
        simp at he
        simp [← he]
    · intro e he
      by_cases ht : 400 ≤ env.token_status
      · rw [capture_order_token_error (get_token_auth hnor ht)] at he
        simp at he
        simp [← he]
      · rw [capture_order_token_ok (get_token_ok hnor ht)] at he
        split_ifs at he
        simp at he
        simp [← he]

/-- Witness for C7: an environment with a missing secret triggers the
configuration error in both handlers. -/
theorem missing_credentials_config_error_witness :
    ((isSet (some "cid") && isSet (none : Option String)) = false) ∧
    create_order ⟨some "cid", none, 200, "", "tok", 201, "", "OID", 201, "", "{}"⟩
        ⟨1, ⟨"DE", "Munich", "80331", "s"⟩⟩ =
      (Except.error PPError.configMissing, []) :=
  ⟨by decide,
   ((missing_credentials_config_error
       ⟨some "cid", none, 200, "", "tok", 201, "", "OID", 201, "", "{}"⟩
       ⟨1, ⟨"DE", "Munich", "80331", "s"⟩⟩ "O").1 (by decide)).1⟩

/-- **C8**: in the provider order payload built by `create_order`, the
shipping address country code of its (single) purchase unit is exactly the
first two characters of the caller-supplied country string, uppercased —
for every input address and every pricing result, with no lookup or
correction. -/
theorem order_payload_country_code (pricing : PricingResponse) (payload : PricingRequest) :
    (build_order_body pricing payload).purchase_units.map
        (fun u => u.shipping_address.country_code) =
      [pyUpper (pyTake payload.address.country 2)] :=
  rfl

/-- **C9**: the `/test` response is a function of the credential presence
flags alone: configurations agreeing on which credentials are set receive
identical responses, and every response equals the flag-determined constant
response (so no credential value ever flows into the body). -/
theorem test_endpoint_no_secret_values (c1 s1 c2 s2 : Option String)
    (h1 : isSet c1 = isSet c2) (h2 : isSet s1 = isSet s2) :
    test_database c1 s1 = test_database c2 s2 ∧
    ∀ c s : Option String, test_database c s = testResponseOfFlags (isSet c) (isSet s) := by
  constructor
  · simp [test_database, h1, h2]
  · intro c s
    rfl

/-- Witness for C9: two configurations with equal presence flags but
different secret values give the same `/test` response. -/
theorem test_endpoint_no_secret_values_witness :
    isSet (some "client-A") = isSet (some "client-B") ∧
    isSet (some "secret-A") = isSet (some "secret-B") ∧
    test_database (some "client-A") (some "secret-A") =
      test_database (some "client-B") (some "secret-B") :=
  ⟨by decide, by decide,
   (test_endpoint_no_secret_values (some "client-A") (some "secret-A")
     (some "client-B") (some "secret-B") (by decide) (by decide)).1⟩
